import Mathlib

/-!
Shallow embedding of a minimal HTTP server (class HttpServer in
src/lib/classes/app.ts, interface IHttpServer in src/interfaces/app.ts,
demo wiring in src/index.ts) and proofs about its dispatch pipeline.

The embedding models the observable effect of the code on a response
object: writeHead sets the status code and the Content-Type header,
end writes the body and closes the stream.  Middleware is modelled as
its effect on the response paired with whether it invokes the
continuation it is given.  Node request emission is modelled as running
every subscribed request listener in subscription order; an exception
thrown by a listener aborts the emission and is modelled as none.
-/

namespace HttpServer

/-- An incoming request.  The code only reads req.method and req.url. -/
structure Request where
  method : String
  url : String
deriving DecidableEq

/-- The observable state of a ServerResponse.  endCount counts the
number of res.end calls received by this response object, so that
exactly-once finalization is a statement about endCount. -/
structure Response where
  statusCode : Option Nat
  contentType : Option String
  body : Option String
  ended : Bool
  endCount : Nat
deriving DecidableEq

/-- A fresh response object, before any write. -/
def initResponse : Response := ⟨none, none, none, false, 0⟩

/-- res.writeHead(status, headers) with headers carrying Content-Type. -/
def writeHead (res : Response) (status : Nat) (ct : String) : Response :=
  { res with statusCode := some status, contentType := some ct }

/-- res.end(body): write the body and close the stream. -/
def resEnd (res : Response) (b : String) : Response :=
  { res with body := some b, ended := true, endCount := res.endCount + 1 }

/-- type Middleware = (req, res, next) => void, modelled as the effect
on the response together with whether the middleware invokes next. -/
abbrev Middleware : Type := Request → Response → Response × Bool

/-- A route callback or request listener: (req, res) => void. -/
abbrev Handler : Type := Request → Response → Response

/-- HttpServer.finalRequestHandler: switch on req.method, where the
four cases GET, POST, PUT, DELETE fall through to a single 200 branch
and the default branch answers 405. -/
def finalRequestHandler (req : Request) (res : Response) : Response :=
  if req.method = "GET" ∨ req.method = "POST" ∨ req.method = "PUT" ∨ req.method = "DELETE" then
    resEnd (writeHead res 200 "text/plain")
      ("Received " ++ req.method ++ " request for " ++ req.url)
  else
    resEnd (writeHead res 405 "text/plain")
      ("Method " ++ req.method ++ " not allowed")

/-- Observable dispatch events: invocation of the middleware at index i,
or the run of finalRequestHandler. -/
inductive Event where
  | mw (i : Nat)
  | final
deriving DecidableEq

/-- The nextMiddleware closure of HttpServer.handleRequest, at the point
where currentMiddlewareIndex = i; the list argument is the remaining
suffix middlewares.drop i.  A middleware at index i either calls next,
continuing at index i + 1, or returns without calling it, halting the
pipeline; when the index passes the end of the list,
finalRequestHandler runs.  The event list records what ran. -/
def runFrom (req : Request) : Nat → List Middleware → Response → Response × List Event
  | _, [], res => (finalRequestHandler req res, [Event.final])
  | i, m :: rest, res =>
    let out := m req res
    if out.2 then
      let k := runFrom req (i + 1) rest out.1
      (k.1, Event.mw i :: k.2)
    else
      (out.1, [Event.mw i])

/-- HttpServer.handleRequest: starts the chain by invoking
middlewares[0] unconditionally.  On an empty middleware list,
middlewares[0] is undefined and invoking it raises a TypeError,
modelled as none. -/
def handleRequest (mws : List Middleware) (req : Request) (res : Response) :
    Option (Response × List Event) :=
  match mws with
  | [] => none
  | _ :: _ => some (runFrom req 0 mws res)

/-- The request listener that HttpServer.registerHandler subscribes for
a given (method, route, callback): when req.method differs from the
registered method it answers 405 with a body naming the REGISTERED
method, else when req.url differs from the route it answers 404, else
it runs the callback. -/
def handlerFor (method route : String) (cb : Handler) : Handler :=
  fun req res =>
    if req.method ≠ method then
      resEnd (writeHead res 405 "text/plain") ("Method " ++ method ++ " not allowed")
    else if req.url ≠ route then
      resEnd (writeHead res 404 "text/plain") "Not found"
    else
      cb req res

/-- The state of an HttpServer instance: its middleware list, and the
request listeners subscribed after the one the constructor installs
(each registerHandler call adds one listener via server.on). -/
structure ServerState where
  middlewares : List Middleware
  handlers : List Handler

/-- The private constructor: createServer(handleRequest) and an empty
middleware list; no extra listeners yet. -/
def newServer : ServerState := ⟨[], []⟩

/-- HttpServer.app, the singleton factory, as a function of the static
instance field: when the field is set it throws, otherwise it
constructs the instance and stores it.  The result pairs the outcome
with the static field after the call. -/
def app (inst : Option ServerState) : Except String ServerState × Option ServerState :=
  match inst with
  | some s => (Except.error "You can not run 2 servers on the same machine", some s)
  | none => (Except.ok newServer, some newServer)

/-- HttpServer.use: push the middleware onto the list. -/
def use (s : ServerState) (m : Middleware) : ServerState :=
  { s with middlewares := s.middlewares ++ [m] }

/-- HttpServer.registerHandler: server.on("request", listener) appends
one more request listener. -/
def registerHandler (s : ServerState) (method route : String) (cb : Handler) : ServerState :=
  { s with handlers := s.handlers ++ [handlerFor method route cb] }

/-- HttpServer.get. -/
def get (s : ServerState) (route : String) (cb : Handler) : ServerState :=
  registerHandler s "GET" route cb

/-- HttpServer.post. -/
def post (s : ServerState) (route : String) (cb : Handler) : ServerState :=
  registerHandler s "POST" route cb

/-- HttpServer.put. -/
def put (s : ServerState) (route : String) (cb : Handler) : ServerState :=
  registerHandler s "PUT" route cb

/-- HttpServer.delete. -/
def delete (s : ServerState) (route : String) (cb : Handler) : ServerState :=
  registerHandler s "DELETE" route cb

/-- Arrival of one request: node emits the request event to every
listener in subscription order, handleRequest (installed by the
constructor) first, then each listener added by registerHandler, all on
the same request and response objects.  The TypeError thrown by
handleRequest on an empty middleware list aborts the emission. -/
def emitRequest (s : ServerState) (req : Request) (res : Response) : Option Response :=
  match handleRequest s.middlewares req res with
  | none => none
  | some out => some (s.handlers.foldl (fun r h => h req r) out.1)

/-- One request served against a fixed registration state.  Dispatch
only reads the middleware list and the listener list: the only writes
to them in the source are use and registerHandler, neither of which is
reachable from request handling, so the state after the request is the
state before it. -/
def dispatchStep (s : ServerState) (req : Request) : Option Response × ServerState :=
  (emitRequest s req initResponse, s)

/-- A middleware that performs no write and calls next. -/
def passMw : Middleware := fun _ res => (res, true)

/-- A middleware that performs no write and does not call next. -/
def haltMw : Middleware := fun _ res => (res, false)

/-- The route callback registered in src/index.ts: res.end("zd"). -/
def iliaCb : Handler := fun _ res => resEnd res "zd"

/-! Helper lemmas about the middleware chain. -/

/-- Shape of the event trace of the chain started at index i: either it
halts at some middleware, having run exactly the contiguous indices
i, i+1, ... and nothing afterwards, or it runs every remaining
middleware in order and then finalRequestHandler. -/
theorem runFrom_trace (req : Request) (l : List Middleware) :
    ∀ (i : Nat) (res : Response),
      (∃ k, k < l.length ∧
        (runFrom req i l res).2 = (List.range' i (k + 1)).map Event.mw) ∨
      (runFrom req i l res).2 = (List.range' i l.length).map Event.mw ++ [Event.final] := by
  induction l with
  | nil =>
    intro i res
    right
    simp [runFrom]
  | cons m rest ih =>
    intro i res
    by_cases hc : (m req res).2
    · rcases ih (i + 1) (m req res).1 with ⟨k, hk, htr⟩ | htr
      · left
        refine ⟨k + 1, by simpa using Nat.succ_lt_succ hk, ?_⟩
        simp [runFrom, hc, htr, List.range'_succ]
      · right
        simp [runFrom, hc, htr, List.range'_succ]
    · left
      refine ⟨0, by simp, ?_⟩
      simp [runFrom, hc, List.range'_succ]

/-- When every remaining middleware calls next on every response state,
the chain threads the response through all of them and ends in
finalRequestHandler, and the trace lists every remaining index followed
by the final event. -/
theorem runFrom_all (req : Request) :
    ∀ (l : List Middleware), (∀ m ∈ l, ∀ r, (m req r).2 = true) →
      ∀ (i : Nat) (res : Response), ∃ r2,
        runFrom req i l res =
          (finalRequestHandler req r2,
            (List.range' i l.length).map Event.mw ++ [Event.final]) := by
  intro l
  induction l with
  | nil =>
    intro _ i res
    exact ⟨res, by simp [runFrom]⟩
  | cons m rest ih =>
    intro hall i res
    have hm : (m req res).2 = true := hall m (by simp) res
    obtain ⟨r2, hr⟩ := ih (fun x hx r => hall x (List.mem_cons_of_mem m hx) r) (i + 1) (m req res).1
    exact ⟨r2, by simp [runFrom, hm, hr, List.range'_succ]⟩

/-! The claims. -/

/-- Claim C1: for every registered middleware sequence and every
incoming request, the dispatcher invokes the middleware strictly in
registration order starting at index 0, and stops at the first
middleware that does not call its continuation: no later middleware
runs after such a halt.  Formally, the event trace of a completed
dispatch is either the contiguous middleware indices 0..k for some k
below the count with nothing afterwards, or all indices in order
followed by the final responder. -/
theorem C1_mw_order (mws : List Middleware) (req : Request) (res : Response)
    (out : Response × List Event) (h : handleRequest mws req res = some out) :
    (∃ k, k < mws.length ∧ out.2 = (List.range (k + 1)).map Event.mw) ∨
    out.2 = (List.range mws.length).map Event.mw ++ [Event.final] := by
  cases mws with
  | nil => simp [handleRequest] at h
  | cons m rest =>
    have hout : out = runFrom req 0 (m :: rest) res := by
      have := h
      simp only [handleRequest, Option.some.injEq] at this
      exact this.symm
    rw [hout]
    have := runFrom_trace req (m :: rest) 0 res
    simpa [List.range_eq_range'] using this

/-- Witness for C1 at a concrete chain: one middleware that calls next
followed by one that does not; the trace is exactly indices 0 then 1. -/
theorem C1_mw_order_witness :
    (∃ k, k < ([passMw, haltMw] : List Middleware).length ∧
      ((initResponse, [Event.mw 0, Event.mw 1]) : Response × List Event).2 =
        (List.range (k + 1)).map Event.mw) ∨
    ((initResponse, [Event.mw 0, Event.mw 1]) : Response × List Event).2 =
      (List.range ([passMw, haltMw] : List Middleware).length).map Event.mw ++ [Event.final] :=
  C1_mw_order [passMw, haltMw] ⟨"GET", "/ilia"⟩ initResponse
    (initResponse, [Event.mw 0, Event.mw 1]) rfl

/-- Claim C2 as stated is false on the empty middleware list: every
registered middleware vacuously calls its continuation there, yet the
dispatch crashes and the final responder runs zero times, not once. -/
theorem C2_cex :
    (∀ m ∈ ([] : List Middleware), ∀ r, (m (⟨"GET", "/ilia"⟩ : Request) r).2 = true) ∧
    handleRequest [] ⟨"GET", "/ilia"⟩ initResponse = none := by
  constructor
  · intro m hm r
    exact absurd hm (List.not_mem_nil m)
  · rfl

/-- Claim C2 (amended): provided at least one middleware is registered,
if every registered middleware calls its continuation then the final
responder runs exactly once, and when the method is one of GET, POST,
PUT, DELETE the response has status 200, Content-Type text/plain and
body "Received METHOD request for URL". -/
theorem C2_final_once (mws : List Middleware) (req : Request) (res : Response)
    (hne : mws ≠ []) (hall : ∀ m ∈ mws, ∀ r, (m req r).2 = true) :
    ∃ out, handleRequest mws req res = some out ∧
      (∃ pre, out.2 = pre ++ [Event.final] ∧ Event.final ∉ pre) ∧
      (req.method = "GET" ∨ req.method = "POST" ∨ req.method = "PUT" ∨ req.method = "DELETE" →
        out.1.statusCode = some 200 ∧ out.1.contentType = some "text/plain" ∧
        out.1.body = some ("Received " ++ req.method ++ " request for " ++ req.url) ∧
        out.1.ended = true) := by
  obtain ⟨m, rest, rfl⟩ := List.exists_cons_of_ne_nil hne
  obtain ⟨r2, hr⟩ := runFrom_all req (m :: rest) hall 0 res
  refine ⟨runFrom req 0 (m :: rest) res, rfl, ?_, ?_⟩
  · refine ⟨(List.range' 0 (m :: rest).length).map Event.mw, ?_, ?_⟩
    · rw [hr]
    · simp
  · intro hmeth
    rw [hr]
    simp only [finalRequestHandler, if_pos hmeth]
    exact ⟨rfl, rfl, rfl, rfl⟩

/-- Witness for C2 at a concrete chain with one pass-through middleware
and the request GET /ilia. -/
theorem C2_final_once_witness :
    ∃ out, handleRequest [passMw] ⟨"GET", "/ilia"⟩ initResponse = some out ∧
      (∃ pre, out.2 = pre ++ [Event.final] ∧ Event.final ∉ pre) ∧
      ("GET" = "GET" ∨ "GET" = "POST" ∨ "GET" = "PUT" ∨ "GET" = "DELETE" →
        out.1.statusCode = some 200 ∧ out.1.contentType = some "text/plain" ∧
        out.1.body = some ("Received " ++ "GET" ++ " request for " ++ "/ilia") ∧
        out.1.ended = true) :=
  C2_final_once [passMw] ⟨"GET", "/ilia"⟩ initResponse (by simp)
    (by
      intro m hm r
      rw [List.mem_singleton] at hm
      subst hm
      rfl)

/-- Claim C3 as stated is false: POST /ilia against the listener
registered by get("/ilia", cb) produces the body "Method GET not
allowed", naming the registered method, not "Method POST not allowed"
naming the incoming method. -/
theorem C3_cex :
    (handlerFor "GET" "/ilia" iliaCb ⟨"POST", "/ilia"⟩ initResponse).body ≠
      some "Method POST not allowed" ∧
    (handlerFor "GET" "/ilia" iliaCb ⟨"POST", "/ilia"⟩ initResponse).body =
      some "Method GET not allowed" := by
  exact ⟨by decide, rfl⟩

/-- Claim C3 (amended): after registering via get("/ilia", cb), the
request POST /ilia yields status 405 with Content-Type text/plain and
body "Method GET not allowed": the body names the registered method,
not the incoming one. -/
theorem C3_method_mismatch (cb : Handler) (res : Response) :
    (handlerFor "GET" "/ilia" cb ⟨"POST", "/ilia"⟩ res).statusCode = some 405 ∧
    (handlerFor "GET" "/ilia" cb ⟨"POST", "/ilia"⟩ res).contentType = some "text/plain" ∧
    (handlerFor "GET" "/ilia" cb ⟨"POST", "/ilia"⟩ res).body = some "Method GET not allowed" ∧
    (handlerFor "GET" "/ilia" cb ⟨"POST", "/ilia"⟩ res).ended = true :=
  ⟨rfl, rfl, rfl, rfl⟩

/-- Claim C4: after registering via get("/ilia", cb), the request
GET /ilia runs cb on the request and response, and the request
GET /other yields status 404 with Content-Type text/plain and body
"Not found". -/
theorem C4_route_match (cb : Handler) (res : Response) :
    handlerFor "GET" "/ilia" cb ⟨"GET", "/ilia"⟩ res = cb ⟨"GET", "/ilia"⟩ res ∧
    (handlerFor "GET" "/ilia" cb ⟨"GET", "/other"⟩ res).statusCode = some 404 ∧
    (handlerFor "GET" "/ilia" cb ⟨"GET", "/other"⟩ res).contentType = some "text/plain" ∧
    (handlerFor "GET" "/ilia" cb ⟨"GET", "/other"⟩ res).body = some "Not found" ∧
    (handlerFor "GET" "/ilia" cb ⟨"GET", "/other"⟩ res).ended = true :=
  ⟨rfl, rfl, rfl, rfl, rfl⟩

/-- A server wired like src/index.ts but whose middleware calls next:
one pass-through middleware and one get("/ilia") registration. -/
def c5Server : ServerState := get (use newServer passMw) "/ilia" iliaCb

/-- Claim C5 is violated by the code: for the request GET /ilia against
c5Server the response receives res.end twice, once from the final
responder reached through the middleware chain and once from the route
listener, so finalization is not exactly-once. -/
theorem C5_double_finalize :
    Option.map Response.endCount (emitRequest c5Server ⟨"GET", "/ilia"⟩ initResponse) =
      some 2 := by
  rfl

/-- Claim C6: with no middleware registered, dispatch fails (the call
of the missing middlewares[0] raises, modelled none) instead of
reaching the final responder. -/
theorem C6_empty_crash (req : Request) (res : Response) :
    handleRequest [] req res = none ∧
    handleRequest [] req res ≠ some (finalRequestHandler req res, [Event.final]) :=
  ⟨rfl, by simp [handleRequest]⟩

/-- Claim C7: a request whose method is none of GET, POST, PUT, DELETE
reaching the final responder gets status 405, Content-Type text/plain
and body "Method METHOD not allowed" naming the incoming method. -/
theorem C7_unsupported_method (req : Request) (res : Response)
    (h : ¬ (req.method = "GET" ∨ req.method = "POST" ∨ req.method = "PUT" ∨
      req.method = "DELETE")) :
    (finalRequestHandler req res).statusCode = some 405 ∧
    (finalRequestHandler req res).contentType = some "text/plain" ∧
    (finalRequestHandler req res).body = some ("Method " ++ req.method ++ " not allowed") ∧
    (finalRequestHandler req res).ended = true := by
  simp only [finalRequestHandler, if_neg h]
  exact ⟨rfl, rfl, rfl, rfl⟩

/-- Witness for C7 at the request PATCH /ilia. -/
theorem C7_unsupported_method_witness :
    (finalRequestHandler ⟨"PATCH", "/ilia"⟩ initResponse).statusCode = some 405 ∧
    (finalRequestHandler ⟨"PATCH", "/ilia"⟩ initResponse).contentType = some "text/plain" ∧
    (finalRequestHandler ⟨"PATCH", "/ilia"⟩ initResponse).body =
      some "Method PATCH not allowed" ∧
    (finalRequestHandler ⟨"PATCH", "/ilia"⟩ initResponse).ended = true :=
  C7_unsupported_method ⟨"PATCH", "/ilia"⟩ initResponse (by decide)

/-- Claim C8: the first factory call returns the instance and stores
it; every later call throws and leaves the stored singleton exactly as
it was, still referring to the first instance. -/
theorem C8_singleton :
    app none = (Except.ok newServer, some newServer) ∧
    ∀ s, app (some s) =
      (Except.error "You can not run 2 servers on the same machine", some s) :=
  ⟨rfl, fun _ => rfl⟩

/-- Claim C9: dispatch is a deterministic function of the request and
the registration state: serving a request leaves the state unchanged,
and serving the same request again from the resulting state produces
the identical response. -/
theorem C9_deterministic (s : ServerState) (req : Request) :
    (dispatchStep s req).2 = s ∧
    (dispatchStep ((dispatchStep s req).2) req).1 = (dispatchStep s req).1 :=
  ⟨rfl, rfl⟩

/-- Claim C10: the registered listener compares the method before the
path: a differing method gets the 405 naming the registered method even
when the path also differs, the 404 Not found arises exactly when the
method matches and the path does not, and the callback runs exactly
when both match. -/
theorem C10_method_first (method route : String) (cb : Handler) (req : Request)
    (res : Response) :
    (req.method ≠ method →
      handlerFor method route cb req res =
        resEnd (writeHead res 405 "text/plain") ("Method " ++ method ++ " not allowed")) ∧
    (req.method = method → req.url ≠ route →
      handlerFor method route cb req res =
        resEnd (writeHead res 404 "text/plain") "Not found") ∧
    (req.method = method → req.url = route →
      handlerFor method route cb req res = cb req res) := by
  refine ⟨fun h => ?_, fun h1 h2 => ?_, fun h1 h2 => ?_⟩
  · simp [handlerFor, h]
  · simp [handlerFor, h1, h2]
  · simp [handlerFor, h1, h2]

/-- Witness for C10: a request whose method and path both differ from
the registration still gets the 405 method response, showing the method
check runs first. -/
theorem C10_method_first_witness :
    handlerFor "GET" "/ilia" iliaCb ⟨"POST", "/other"⟩ initResponse =
      resEnd (writeHead initResponse 405 "text/plain") ("Method " ++ "GET" ++ " not allowed") :=
  (C10_method_first "GET" "/ilia" iliaCb ⟨"POST", "/other"⟩ initResponse).1 (by decide)

end HttpServer
